import Mathlib

/-!
Shallow embedding of the audio core of src/main.py (the Sub Bass Synthesizer).
Real-valued parameters are modelled as rationals; sample values as real
numbers.  Python's `int()` is truncation toward zero; `np.linspace` raises
`ValueError` when the requested number of samples is negative, which is
modelled with `Except`.
-/

/-- Truncation toward zero: the semantics of Python's `int()` on a real value. -/
def pyInt (q : ℚ) : ℤ := if 0 ≤ q then ⌊q⌋ else ⌈q⌉

/-- `np.linspace(0, d, n)` with the default `endpoint=True`: `n` evenly spaced
points from `0` to `d` inclusive; for `n = 1` the single point `0`, for
`n = 0` the empty list. -/
def linspace0 (d : ℚ) (n : ℕ) : List ℚ :=
  (List.range n).map (fun (i : ℕ) => if n = 1 then 0 else d * (i : ℚ) / ((n : ℚ) - 1))

/-- `generate_sine_wave(frequency, duration, sample_rate)` from src/main.py:
`t = np.linspace(0, duration, int(sample_rate * duration))`,
`wave = np.sin(2 * np.pi * frequency * t)`, returns `wave * 0.3`.
The function performs no validation of its own; `np.linspace` raises
`ValueError` when `int(sample_rate * duration)` is negative, modelled by the
error branch. -/
noncomputable def generate_sine_wave (frequency duration sample_rate : ℚ) :
    Except String (List ℝ) :=
  let n : ℤ := pyInt (sample_rate * duration)
  if n < 0 then
    .error ("Number of samples, " ++ toString n ++ ", must be non-negative")
  else
    .ok ((linspace0 duration n.toNat).map
      (fun (t : ℚ) => Real.sin (2 * Real.pi * (frequency : ℝ) * (t : ℝ)) * (3 / 10)))

/-- A chord event as produced by `analyze_chords` in src/main.py:
a dict with keys `chord`, `root`, `duration`. -/
structure ChordEvent where
  chord : String
  root : ℚ
  duration : ℚ

/-- The result dict of `add_sub_bass` in src/main.py:
`status`, `chords_detected`, `bass_duration`. -/
structure RenderResult where
  status : String
  chords_detected : ℕ
  bass_duration : ℚ

/-- The loop of `add_sub_bass`: synthesize one layer per chord, in timeline
order; a Python exception raised by `generate_sine_wave` propagates at the
first failing event and all layers built so far are discarded. -/
noncomputable def synth_all (chords : List ChordEvent) :
    Except String (List (List ℝ)) :=
  match chords with
  | [] => .ok []
  | c :: rest =>
    match generate_sine_wave c.root c.duration 44100 with
    | .error e => .error e
    | .ok w =>
      match synth_all rest with
      | .error e => .error e
      | .ok ws => .ok (w :: ws)

/-- `combined_bass = np.concatenate(sub_bass_layers) if sub_bass_layers else
np.array([])` from `add_sub_bass` in src/main.py. -/
noncomputable def combined_bass (chords : List ChordEvent) :
    Except String (List ℝ) :=
  match synth_all chords with
  | .error e => .error e
  | .ok layers => .ok layers.flatten

/-- `add_sub_bass(original_file, chords)` from src/main.py: builds the
combined bass buffer and returns the summary dict
`status = "success"`, `chords_detected = len(chords)`,
`bass_duration = len(combined_bass) / 44100 if len(combined_bass) > 0 else 0`.
The `original_file` argument is accepted but never read. -/
noncomputable def add_sub_bass (original_file : String)
    (chords : List ChordEvent) : Except String RenderResult :=
  match combined_bass chords with
  | .error e => .error e
  | .ok cb =>
    .ok ⟨"success", chords.length,
      if 0 < cb.length then (cb.length : ℚ) / 44100 else 0⟩

/-- Observe the length of a buffer returned by a fallible synthesis call:
`some` of the length on success, `none` on failure. -/
def exceptLength (e : Except String (List ℝ)) : Option ℕ :=
  match e with
  | .error _ => none
  | .ok l => some l.length

/-- Modelled from the spec: the hard-clipping step of the Mix Stage (§4.3),
absent from src/main.py — samples outside [-1, 1] are clipped to that range. -/
def clip1 (x : ℚ) : ℚ := max (-1) (min 1 x)

/-- Modelled from the spec: the Mix Stage contract of §4.3, which src/main.py
never implements (the mixing step is left as a comment, "In production: Mix
with original audio").  `intensity` outside [0, 1] fails with
`InvalidParameter`; otherwise `output[i] = original[i] + intensity * bass[i]`
over `max` of the two lengths, the shorter buffer zero-padded at the tail,
each sample hard-clipped to [-1, 1] after summation. -/
def mix (original bass : List ℚ) (intensity : ℚ) : Except String (List ℚ) :=
  if intensity < 0 ∨ 1 < intensity then .error "InvalidParameter"
  else
    .ok ((List.range (max original.length bass.length)).map
      (fun i => clip1 (original.getD i 0 + intensity * bass.getD i 0)))

/-! ### Basic lemmas about the embedding -/

theorem pyInt_nonneg {q : ℚ} (h : 0 ≤ q) : 0 ≤ pyInt q := by
  rw [pyInt, if_pos h]
  exact Int.floor_nonneg.mpr h

theorem linspace0_length (d : ℚ) (n : ℕ) : (linspace0 d n).length = n := by
  simp [linspace0]

/-- When the requested sample count is non-negative, `generate_sine_wave`
succeeds with the attenuated sine samples over the `linspace0` grid. -/
theorem gsw_ok (f d sr : ℚ) (h : 0 ≤ pyInt (sr * d)) :
    generate_sine_wave f d sr = .ok ((linspace0 d (pyInt (sr * d)).toNat).map
      (fun (t : ℚ) => Real.sin (2 * Real.pi * (f : ℝ) * (t : ℝ)) * (3 / 10))) := by
  rw [generate_sine_wave, if_neg (by omega)]

/-- When the requested sample count is negative, `np.linspace` raises
`ValueError` and `generate_sine_wave` propagates it. -/
theorem gsw_err (f d sr : ℚ) (h : pyInt (sr * d) < 0) :
    generate_sine_wave f d sr =
      .error ("Number of samples, " ++ toString (pyInt (sr * d)) ++
        ", must be non-negative") := by
  rw [generate_sine_wave, if_pos h]

/-- The length of a successful synthesis is exactly `int(sample_rate * duration)`. -/
theorem exceptLength_gsw (f d sr : ℚ) (h : 0 ≤ pyInt (sr * d)) :
    exceptLength (generate_sine_wave f d sr) = some ((pyInt (sr * d)).toNat) := by
  rw [gsw_ok f d sr h]
  simp [exceptLength, linspace0_length]

/-- `synth_all` succeeds on a timeline whose events all request non-negative
sample counts, producing one sine layer per event, in order. -/
theorem synth_all_eq_ok (chords : List ChordEvent)
    (h : ∀ c ∈ chords, 0 ≤ pyInt (44100 * c.duration)) :
    synth_all chords = .ok (chords.map (fun c =>
      (linspace0 c.duration (pyInt (44100 * c.duration)).toNat).map
        (fun (t : ℚ) => Real.sin (2 * Real.pi * (c.root : ℝ) * (t : ℝ)) * (3 / 10)))) := by
  induction chords with
  | nil => rfl
  | cons c rest ih =>
    rw [synth_all, gsw_ok c.root c.duration 44100 (h c (by simp)),
      ih (fun c' hc' => h c' (by simp [hc']))]
    rfl

/-- The combined bass buffer of a well-formed timeline is the concatenation of
the per-event layers; its length is the sum of the per-event sample counts. -/
theorem combined_bass_length (chords : List ChordEvent)
    (h : ∀ c ∈ chords, 0 ≤ pyInt (44100 * c.duration)) :
    exceptLength (combined_bass chords) =
      some ((chords.map (fun c => (pyInt (44100 * c.duration)).toNat)).sum) := by
  rw [combined_bass, synth_all_eq_ok chords h]
  simp [exceptLength, List.length_flatten, Function.comp_def, linspace0_length]

/-- `add_sub_bass` on a well-formed timeline returns the success summary:
`chords_detected` is the event count and `bass_duration` is the total sample
count divided by 44100 (also when that count is zero). -/
theorem add_sub_bass_eq_ok (file : String) (chords : List ChordEvent)
    (h : ∀ c ∈ chords, 0 ≤ pyInt (44100 * c.duration)) :
    add_sub_bass file chords = .ok ⟨"success", chords.length,
      (((chords.map (fun c => (pyInt (44100 * c.duration)).toNat)).sum : ℕ) : ℚ) / 44100⟩ := by
  rw [add_sub_bass, combined_bass, synth_all_eq_ok chords h]
  have hlen : ((chords.map (fun c =>
      (linspace0 c.duration (pyInt (44100 * c.duration)).toNat).map
        (fun (t : ℚ) => Real.sin (2 * Real.pi * (c.root : ℝ) * (t : ℝ)) * (3 / 10)))).flatten).length
      = (chords.map (fun c => (pyInt (44100 * c.duration)).toNat)).sum := by
    simp [List.length_flatten, Function.comp_def, linspace0_length]
  simp only [hlen]
  rcases Nat.eq_zero_or_pos ((chords.map (fun c => (pyInt (44100 * c.duration)).toNat)).sum) with h0 | h0
  · rw [h0]
    norm_num
  · rw [if_pos h0]

/-- The first event whose requested sample count is negative aborts `synth_all`
with that event's `ValueError`; earlier layers are discarded. -/
theorem synth_all_err (pre : List ChordEvent) (e : ChordEvent)
    (rest : List ChordEvent)
    (hpre : ∀ c ∈ pre, 0 ≤ pyInt (44100 * c.duration))
    (he : pyInt (44100 * e.duration) < 0) :
    synth_all (pre ++ e :: rest) =
      .error ("Number of samples, " ++ toString (pyInt (44100 * e.duration)) ++
        ", must be non-negative") := by
  induction pre with
  | nil =>
    rw [List.nil_append, synth_all, gsw_err e.root e.duration 44100 he]
  | cons c pre ih =>
    rw [List.cons_append, synth_all,
      gsw_ok c.root c.duration 44100 (hpre c (by simp)),
      ih (fun c' hc' => hpre c' (by simp [hc']))]

/-- The first grid point of a non-empty `linspace0` grid is `t = 0`. -/
theorem linspace0_head (d : ℚ) (n : ℕ) (h : 1 ≤ n) :
    (linspace0 d n).head? = some 0 := by
  obtain ⟨m, rfl⟩ := Nat.exists_eq_add_of_le h
  rw [linspace0, Nat.add_comm 1 m, List.range_succ_eq_map]
  cases Nat.eq_zero_or_pos m with
  | inl h0 => subst h0; simp
  | inr hm =>
    have hne : ¬ (m + 1 = 1) := by omega
    simp [hne]

/-- The last grid point of a `linspace0` grid with at least two points is
`t = d`: `np.linspace` includes the right endpoint. -/
theorem linspace0_getLast (d : ℚ) (n : ℕ) (h : 2 ≤ n) :
    (linspace0 d n).getLast? = some d := by
  obtain ⟨m, rfl⟩ := Nat.exists_eq_add_of_le h
  rw [linspace0, show 2 + m = (1 + m) + 1 by omega, List.range_succ, List.map_append,
    List.map_cons, List.map_nil, List.getLast?_concat]
  have hne : ¬ ((1 + m) + 1 = 1) := by omega
  rw [if_neg hne]
  have hcast : ((((1 + m) + 1 : ℕ) : ℚ)) - 1 = (((1 + m : ℕ)) : ℚ) := by push_cast; ring
  rw [hcast, mul_div_assoc, div_self (by positivity), mul_one]

/-! ### Claims -/

/-- Claim C1, counterexample: `synthesize(-10, 1.0)` does not fail with
`InvalidParameter` — `generate_sine_wave` in src/main.py performs no parameter
validation, and the call succeeds, returning a buffer of 44100 samples. -/
theorem C1_counterexample :
    exceptLength (generate_sine_wave (-10) 1 44100) = some 44100 := by
  have hn : pyInt ((44100 : ℚ) * 1) = 44100 := by norm_num [pyInt]
  rw [exceptLength_gsw (-10) 1 44100 (by rw [hn]; norm_num), hn]
  rfl

/-- Claim C1, amended: `generate_sine_wave` performs no input validation.
Whenever the requested sample count `int(sample_rate * duration)` is
non-negative — in particular for every non-positive frequency — the call
succeeds and returns a buffer; when that count is negative the call fails,
with numpy's `ValueError` from `np.linspace`, never with `InvalidParameter`. -/
theorem C1_no_validation (f d sr : ℚ) :
    (0 ≤ pyInt (sr * d) → ∃ buf, generate_sine_wave f d sr = .ok buf) ∧
    (pyInt (sr * d) < 0 → generate_sine_wave f d sr =
      .error ("Number of samples, " ++ toString (pyInt (sr * d)) ++
        ", must be non-negative")) :=
  ⟨fun h => ⟨_, gsw_ok f d sr h⟩, fun h => gsw_err f d sr h⟩

/-- Claim C1, witness: at `frequency = -10`, `duration = 1`,
`sample_rate = 44100` the sample count is non-negative and the call succeeds. -/
theorem C1_witness :
    0 ≤ pyInt ((44100 : ℚ) * 1) ∧
    (∃ buf, generate_sine_wave (-10) 1 44100 = .ok buf) := by
  have hn : 0 ≤ pyInt ((44100 : ℚ) * 1) := by norm_num [pyInt]
  exact ⟨hn, (C1_no_validation (-10) 1 44100).1 hn⟩

/-- Claim C2, counterexample: at the valid input `frequency = 1`,
`duration = 1/2`, `sample_rate = 3` the returned buffer has
`int(3 * 1/2) = 1` sample, whereas `round(3 * 1/2) = 2`. -/
theorem C2_counterexample :
    (0 : ℚ) < 1 ∧ (0 : ℚ) < 1/2 ∧ (0 : ℚ) < 3 ∧
    exceptLength (generate_sine_wave 1 (1/2) 3) = some 1 ∧
    round ((3 : ℚ) * (1/2)) = 2 := by
  have hn : pyInt ((3 : ℚ) * (1/2)) = 1 := by norm_num [pyInt]
  refine ⟨by norm_num, by norm_num, by norm_num, ?_, by norm_num [round_eq]⟩
  rw [exceptLength_gsw 1 (1/2) 3 (by rw [hn]; norm_num), hn]
  rfl

/-- Claim C2, amended: for every valid input (`frequency > 0`, `duration > 0`,
`sample_rate > 0`) the buffer returned by `generate_sine_wave(f, d, sr)` has
length `int(sr * d)` (truncation, as in the source), not `round(sr * d)`. -/
theorem C2_length (f d sr : ℚ) (hf : 0 < f) (hd : 0 < d) (hsr : 0 < sr) :
    exceptLength (generate_sine_wave f d sr) = some ((pyInt (sr * d)).toNat) :=
  exceptLength_gsw f d sr (pyInt_nonneg (by positivity))

/-- Claim C2, witness: at `frequency = 1`, `duration = 2`,
`sample_rate = 44100` the buffer has `int(44100 * 2) = 88200` samples. -/
theorem C2_witness :
    ((0 : ℚ) < 1 ∧ (0 : ℚ) < 2 ∧ (0 : ℚ) < 44100) ∧
    exceptLength (generate_sine_wave 1 2 44100) = some 88200 := by
  refine ⟨⟨by norm_num, by norm_num, by norm_num⟩, ?_⟩
  rw [C2_length 1 2 44100 (by norm_num) (by norm_num) (by norm_num)]
  have hn : pyInt ((44100 : ℚ) * 2) = 88200 := by norm_num [pyInt]
  rw [hn]
  rfl

/-- Claim C3, counterexample: for `frequency = 1`, `duration = 1`,
`sample_rate = 2` the time grid of `generate_sine_wave` is `[0, 1]` — the
sample at `t = duration = 1` IS emitted (`np.linspace` includes the right
endpoint), so the grid covers the closed interval `[0, duration]`, not the
half-open `[0, duration)`. -/
theorem C3_counterexample :
    linspace0 1 ((pyInt ((2 : ℚ) * 1)).toNat) = [0, 1] ∧
    generate_sine_wave 1 1 2 = .ok ([(0 : ℚ), 1].map
      (fun (t : ℚ) => Real.sin (2 * Real.pi * ((1 : ℚ) : ℝ) * (t : ℝ)) * (3 / 10))) := by
  have hn : pyInt ((2 : ℚ) * 1) = 2 := by norm_num [pyInt]
  have hn2 : (pyInt ((2 : ℚ) * 1)).toNat = 2 := by rw [hn]; rfl
  have hgrid : linspace0 1 ((pyInt ((2 : ℚ) * 1)).toNat) = [0, 1] := by
    rw [hn2]
    norm_num [linspace0, List.range_succ]
  refine ⟨hgrid, ?_⟩
  rw [gsw_ok 1 1 2 (by rw [hn]; norm_num), hgrid]

/-- Claim C3, amended: for every valid input whose sample count
`n = int(sr * d)` is at least 2, the samples of `generate_sine_wave(f, d, sr)`
are `sin(2π f t) * 0.3` for `t` taken at the `n` evenly spaced points of
`np.linspace(0, d, n)`, which cover the CLOSED interval `[0, d]`: the first
grid point is `0` and the last is `d`, so the end-of-duration sample is
emitted (and would be re-emitted as the start of an adjacent tone). -/
theorem C3_closed_interval (f d sr : ℚ) (hf : 0 < f) (hd : 0 < d) (hsr : 0 < sr)
    (h2 : 2 ≤ (pyInt (sr * d)).toNat) :
    generate_sine_wave f d sr = .ok ((linspace0 d (pyInt (sr * d)).toNat).map
      (fun (t : ℚ) => Real.sin (2 * Real.pi * (f : ℝ) * (t : ℝ)) * (3 / 10))) ∧
    (linspace0 d (pyInt (sr * d)).toNat).head? = some 0 ∧
    (linspace0 d (pyInt (sr * d)).toNat).getLast? = some d :=
  ⟨gsw_ok f d sr (pyInt_nonneg (by positivity)),
   linspace0_head d _ (by omega),
   linspace0_getLast d _ h2⟩

/-- Claim C3, witness: at `frequency = 1`, `duration = 1`, `sample_rate = 2`
the grid has two points, starting at `0` and ending at `duration = 1`. -/
theorem C3_witness :
    ((0 : ℚ) < 1 ∧ (0 : ℚ) < 2 ∧ 2 ≤ (pyInt ((2 : ℚ) * 1)).toNat) ∧
    (linspace0 1 ((pyInt ((2 : ℚ) * 1)).toNat)).head? = some 0 ∧
    (linspace0 1 ((pyInt ((2 : ℚ) * 1)).toNat)).getLast? = some 1 := by
  have hn : pyInt ((2 : ℚ) * 1) = 2 := by norm_num [pyInt]
  have h2 : 2 ≤ (pyInt ((2 : ℚ) * 1)).toNat := by rw [hn]; norm_num
  exact ⟨⟨by norm_num, by norm_num, h2⟩,
    (C3_closed_interval 1 1 2 (by norm_num) (by norm_num) (by norm_num) h2).2.1,
    (C3_closed_interval 1 1 2 (by norm_num) (by norm_num) (by norm_num) h2).2.2⟩

/-- Claim C4, counterexample: for the valid one-event timeline with
`duration = 1/29400` (so `44100 * duration = 3/2`), the rendered buffer has
`int(3/2) = 1` sample while `round(3/2) = 2`, so the buffer length is NOT the
sum of `round(44100 * e.duration)` over the events. -/
theorem C4_counterexample :
    (∀ c ∈ ([⟨"X", 1, 1/29400⟩] : List ChordEvent), 0 < c.root ∧ 0 < c.duration) ∧
    exceptLength (combined_bass [⟨"X", 1, 1/29400⟩]) = some 1 ∧
    (([⟨"X", 1, 1/29400⟩] : List ChordEvent).map
      (fun c => round ((44100 : ℚ) * c.duration))).sum = 2 := by
  have hn : pyInt ((44100 : ℚ) * (1/29400)) = 1 := by norm_num [pyInt]
  have hv : ∀ c ∈ ([⟨"X", 1, 1/29400⟩] : List ChordEvent),
      0 ≤ pyInt (44100 * c.duration) := by
    intro c hc
    simp only [List.mem_singleton] at hc
    subst hc
    show (0 : ℤ) ≤ pyInt ((44100 : ℚ) * (1/29400))
    rw [hn]
    norm_num
  refine ⟨?_, ?_, ?_⟩
  · intro c hc
    simp only [List.mem_singleton] at hc
    subst hc
    exact ⟨by norm_num, by norm_num⟩
  · rw [combined_bass_length [⟨"X", 1, 1/29400⟩] hv]
    simp only [List.map_cons, List.map_nil, List.sum_cons, List.sum_nil]
    show some ((pyInt ((44100 : ℚ) * (1/29400))).toNat + 0) = some 1
    rw [hn]
    rfl
  · simp only [List.map_cons, List.map_nil, List.sum_cons, List.sum_nil]
    show round ((44100 : ℚ) * (1/29400)) + 0 = 2
    norm_num [round_eq]

/-- Claim C4, amended: for every timeline of valid chord events, the rendered
buffer's length equals the sum over the events of `int(44100 * e.duration)`
(truncation, not `round`) — rendering concatenates the per-event buffers in
timeline order with no overlap and no gaps — and `add_sub_bass` reports
`chords_detected` = number of events and `bass_duration` = buffer length /
44100; the concrete four-chord scenario still yields buffer length 352800,
`chords_detected = 4` and `bass_duration = 8.0`. -/
theorem C4_concatenation (file : String) (chords : List ChordEvent)
    (h : ∀ c ∈ chords, 0 < c.root ∧ 0 < c.duration) :
    exceptLength (combined_bass chords) =
      some ((chords.map (fun c => (pyInt (44100 * c.duration)).toNat)).sum) ∧
    add_sub_bass file chords = .ok ⟨"success", chords.length,
      (((chords.map (fun c => (pyInt (44100 * c.duration)).toNat)).sum : ℕ) : ℚ) / 44100⟩ := by
  have h' : ∀ c ∈ chords, 0 ≤ pyInt (44100 * c.duration) := fun c hc =>
    pyInt_nonneg (by have := (h c hc).2; positivity)
  exact ⟨combined_bass_length chords h', add_sub_bass_eq_ok file chords h'⟩

/-- Claim C4, witness: the scenario timeline
`[("C", 65.4, 2.0), ("G", 98.0, 2.0), ("Am", 110.0, 2.0), ("F", 87.3, 2.0)]`
renders to a 352800-sample buffer with `chords_detected = 4` and
`bass_duration = 8`. -/
theorem C4_witness :
    (∀ c ∈ ([⟨"C", 65.4, 2⟩, ⟨"G", 98, 2⟩, ⟨"Am", 110, 2⟩, ⟨"F", 87.3, 2⟩] :
        List ChordEvent), 0 < c.root ∧ 0 < c.duration) ∧
    exceptLength (combined_bass
      [⟨"C", 65.4, 2⟩, ⟨"G", 98, 2⟩, ⟨"Am", 110, 2⟩, ⟨"F", 87.3, 2⟩]) = some 352800 ∧
    add_sub_bass "song.mp3"
      [⟨"C", 65.4, 2⟩, ⟨"G", 98, 2⟩, ⟨"Am", 110, 2⟩, ⟨"F", 87.3, 2⟩] =
      .ok ⟨"success", 4, 8⟩ := by
  have hvalid : ∀ c ∈ ([⟨"C", 65.4, 2⟩, ⟨"G", 98, 2⟩, ⟨"Am", 110, 2⟩, ⟨"F", 87.3, 2⟩] :
      List ChordEvent), 0 < c.root ∧ 0 < c.duration := by
    intro c hc
    fin_cases hc <;> exact ⟨by norm_num, by norm_num⟩
  have hk := C4_concatenation "song.mp3"
    [⟨"C", 65.4, 2⟩, ⟨"G", 98, 2⟩, ⟨"Am", 110, 2⟩, ⟨"F", 87.3, 2⟩] hvalid
  have hn : (pyInt ((88200 : ℚ))).toNat = 88200 := by
    have h88 : pyInt ((88200 : ℚ)) = 88200 := by norm_num [pyInt]
    rw [h88]
    rfl
  have hsum : (([⟨"C", 65.4, 2⟩, ⟨"G", 98, 2⟩, ⟨"Am", 110, 2⟩, ⟨"F", 87.3, 2⟩] :
      List ChordEvent).map (fun c => (pyInt (44100 * c.duration)).toNat)).sum = 352800 := by
    simp only [List.map_cons, List.map_nil, List.sum_cons, List.sum_nil]
    norm_num [hn]
  rw [hsum] at hk
  have h8 : ((352800 : ℕ) : ℚ) / 44100 = 8 := by norm_num
  rw [h8] at hk
  exact ⟨hvalid, hk.1, hk.2⟩

/-- Claim C5: rendering the empty timeline succeeds without raising: the
combined buffer is empty and `add_sub_bass` returns the success summary with
`chords_detected = 0` and `bass_duration = 0` — a valid outcome, not an error. -/
theorem C5_empty_timeline (file : String) :
    add_sub_bass file ([] : List ChordEvent) = .ok ⟨"success", 0, 0⟩ ∧
    combined_bass ([] : List ChordEvent) = .ok ([] : List ℝ) :=
  ⟨rfl, rfl⟩

/-- Claim C6: for every valid input, every sample of the buffer returned by
`generate_sine_wave` lies within `[-0.3, 0.3]`: each sample is
`sin(2π f t) * 0.3` and `|sin| ≤ 1`. -/
theorem C6_amplitude_bound (f d sr : ℚ) (hf : 0 < f) (hd : 0 < d) (hsr : 0 < sr)
    (buf : List ℝ) (hbuf : generate_sine_wave f d sr = .ok buf) :
    ∀ x ∈ buf, -(3/10 : ℝ) ≤ x ∧ x ≤ 3/10 := by
  rw [gsw_ok f d sr (pyInt_nonneg (by positivity))] at hbuf
  simp only [Except.ok.injEq] at hbuf
  subst hbuf
  intro x hx
  simp only [List.mem_map] at hx
  obtain ⟨t, ht, rfl⟩ := hx
  have hs1 : Real.sin (2 * Real.pi * (f : ℝ) * (t : ℝ)) ≤ 1 :=
    Real.sin_le_one _
  have hs2 : -1 ≤ Real.sin (2 * Real.pi * (f : ℝ) * (t : ℝ)) :=
    Real.neg_one_le_sin _
  constructor
  · nlinarith
  · nlinarith

/-- Claim C6, witness: at `frequency = 1`, `duration = 1`, `sample_rate = 1`
the returned one-sample buffer is bounded by `[-0.3, 0.3]`. -/
theorem C6_witness :
    ((0 : ℚ) < 1) ∧
    generate_sine_wave 1 1 1 = .ok ((linspace0 1 ((pyInt ((1 : ℚ) * 1)).toNat)).map
      (fun (t : ℚ) => Real.sin (2 * Real.pi * ((1 : ℚ) : ℝ) * (t : ℝ)) * (3 / 10))) ∧
    ∀ x ∈ ((linspace0 1 ((pyInt ((1 : ℚ) * 1)).toNat)).map
      (fun (t : ℚ) => Real.sin (2 * Real.pi * ((1 : ℚ) : ℝ) * (t : ℝ)) * (3 / 10))),
      -(3/10 : ℝ) ≤ x ∧ x ≤ 3/10 := by
  have hok := gsw_ok 1 1 1 (pyInt_nonneg (by norm_num))
  exact ⟨by norm_num, hok,
    C6_amplitude_bound 1 1 1 (by norm_num) (by norm_num) (by norm_num) _ hok⟩

/-- Claim C7: `generate_sine_wave` is deterministic and stateless — it is a
pure function of its arguments, so two calls with identical valid arguments
produce identical buffers. -/
theorem C7_deterministic (f1 d1 sr1 f2 d2 sr2 : ℚ)
    (hf : 0 < f1) (hd : 0 < d1) (hsr : 0 < sr1)
    (hf2 : f1 = f2) (hd2 : d1 = d2) (hsr2 : sr1 = sr2) :
    generate_sine_wave f1 d1 sr1 = generate_sine_wave f2 d2 sr2 := by
  rw [hf2, hd2, hsr2]

/-- Claim C7, witness: two calls at `(65.4, 2, 44100)` agree. -/
theorem C7_witness :
    ((0 : ℚ) < 65.4 ∧ (0 : ℚ) < 2 ∧ (0 : ℚ) < 44100) ∧
    generate_sine_wave 65.4 2 44100 = generate_sine_wave 65.4 2 44100 :=
  ⟨⟨by norm_num, by norm_num, by norm_num⟩,
    C7_deterministic 65.4 2 44100 65.4 2 44100 (by norm_num) (by norm_num)
      (by norm_num) rfl rfl rfl⟩

/-- Claim C8, counterexample: the timeline `[("X", -10, 1)]` contains an event
that fails the spec's synthesizer validation (non-positive `rootFrequency`),
yet `add_sub_bass` does not abort: it renders successfully and returns the
success summary with 1 chord and 1 second of bass. -/
theorem C8_counterexample :
    add_sub_bass "song.mp3" [⟨"X", -10, 1⟩] = .ok ⟨"success", 1, 1⟩ := by
  have hv : ∀ c ∈ ([⟨"X", -10, 1⟩] : List ChordEvent),
      0 ≤ pyInt (44100 * c.duration) := by
    intro c hc
    simp only [List.mem_singleton] at hc
    subst hc
    show (0 : ℤ) ≤ pyInt ((44100 : ℚ) * 1)
    norm_num [pyInt]
  rw [add_sub_bass_eq_ok "song.mp3" [⟨"X", -10, 1⟩] hv]
  have hsum : (([⟨"X", -10, 1⟩] : List ChordEvent).map
      (fun c => (pyInt (44100 * c.duration)).toNat)).sum = 44100 := by
    simp only [List.map_cons, List.map_nil, List.sum_cons, List.sum_nil]
    show (pyInt ((44100 : ℚ) * 1)).toNat + 0 = 44100
    have h44 : pyInt ((44100 : ℚ) * 1) = 44100 := by norm_num [pyInt]
    rw [h44]
    rfl
  rw [hsum, show (((44100 : ℕ)) : ℚ) / 44100 = 1 by norm_num]
  rfl

/-- Claim C8, amended: `add_sub_bass` aborts only when an event's requested
sample count `int(44100 * duration)` is negative (numpy's `ValueError` from
`np.linspace`), NOT on non-positive `rootFrequency`; in that case rendering
stops at the first such event, the originating failure is surfaced and no
partial buffer is returned — the whole result is the error. -/
theorem C8_abort_on_first_negative_count (file : String) (pre : List ChordEvent)
    (e : ChordEvent) (rest : List ChordEvent)
    (hpre : ∀ c ∈ pre, 0 ≤ pyInt (44100 * c.duration))
    (he : pyInt (44100 * e.duration) < 0) :
    add_sub_bass file (pre ++ e :: rest) =
      .error ("Number of samples, " ++ toString (pyInt (44100 * e.duration)) ++
        ", must be non-negative") := by
  rw [add_sub_bass, combined_bass, synth_all_err pre e rest hpre he]

/-- Claim C8, witness: a single event with `duration = -1` makes the render
abort with the propagated `ValueError` and no partial output. -/
theorem C8_witness :
    pyInt ((44100 : ℚ) * (-1)) < 0 ∧
    add_sub_bass "song.mp3" ([⟨"X", 1, -1⟩] : List ChordEvent) =
      .error ("Number of samples, " ++ toString (pyInt ((44100 : ℚ) * (-1))) ++
        ", must be non-negative") := by
  have hneg : pyInt ((44100 : ℚ) * (-1)) < 0 := by
    rw [pyInt, if_neg (by norm_num),
      show ((44100 : ℚ) * (-1)) = (((-44100 : ℤ)) : ℚ) by norm_num,
      Int.ceil_intCast]
    norm_num
  exact ⟨hneg, C8_abort_on_first_negative_count "song.mp3" [] ⟨"X", 1, -1⟩ []
    (by intro c hc; simp at hc) hneg⟩

/-- Claim C9: the Mix Stage contract (modelled from the spec, §4.3): with
`intensity` in `[0, 1]`, `mix` succeeds and `output[i] = original[i] +
intensity * bass[i]`, hard-clipped to `[-1, 1]` after summation, over the
zero-padded common length. -/
theorem C9_mix_clipping (original bass : List ℚ) (intensity : ℚ)
    (h0 : 0 ≤ intensity) (h1 : intensity ≤ 1) (out : List ℚ)
    (hout : mix original bass intensity = .ok out) :
    out.length = max original.length bass.length ∧
    ∀ i, i < out.length →
      out.getD i 0 = clip1 (original.getD i 0 + intensity * bass.getD i 0) := by
  rw [mix, if_neg (by push_neg; exact ⟨h0, h1⟩)] at hout
  simp only [Except.ok.injEq] at hout
  subst hout
  constructor
  · simp
  · intro i hi
    simp only [List.length_map, List.length_range] at hi
    rw [List.getD_eq_getElem?_getD, List.getElem?_map]
    simp [List.getElem?_range, hi]

/-- Claim C9, witness: `mix [1] [1] 1 = [1]`, the sum `2` clipped to `1`. -/
theorem C9_witness :
    ((0 : ℚ) ≤ 1 ∧ (1 : ℚ) ≤ 1) ∧
    mix [1] [1] 1 = .ok [1] ∧
    ([1] : List ℚ).length = max ([1] : List ℚ).length ([1] : List ℚ).length ∧
    (∀ i, i < ([1] : List ℚ).length →
      ([1] : List ℚ).getD i 0 =
        clip1 (([1] : List ℚ).getD i 0 + 1 * ([1] : List ℚ).getD i 0)) := by
  have hmix : mix [1] [1] 1 = .ok [1] := by
    rw [mix, if_neg (by norm_num)]
    norm_num [clip1, List.range_succ]
  have h := C9_mix_clipping [1] [1] 1 (by norm_num) le_rfl [1] hmix
  exact ⟨⟨by norm_num, le_rfl⟩, hmix, h.1, h.2⟩

/-- Claim C10: the result of `add_sub_bass` does not depend on its
`original_file` argument — the original audio never influences the rendered
bass layer or the reported statistics. -/
theorem C10_original_file_irrelevant (file1 file2 : String)
    (chords : List ChordEvent) :
    add_sub_bass file1 chords = add_sub_bass file2 chords := rfl
